import Mathlib

/-!
Shallow embedding of the value-conversion and comparison engine of the
`utilities` Go package (repository `invertedv/utilities`).

The repository contains two snapshots of the engine:
* `src/unnamed/part_000` — the current version (its import set matches the
  repository go.mod in `src/unnamed/part_003`); its `GTAny` coerces the
  right operand to the left operand's tag for numeric tags.
* `src/utilities.go` — an older snapshot whose `GTAny` rejects any pair of
  operands with differing dynamic types.  That variant is embedded in
  namespace `V0` below.
All `Any2*` conversion functions, `LTAny` and the body of `Comparer` are
character-for-character identical in the two snapshots, so they are
embedded once.

Modelling conventions:
* Go `any` values become the tagged union `GoVal`.  The platform `int` is
  modelled as 64-bit (`math.MaxInt = 2^63-1`), the realistic deployment
  target of this package.
* Machine integers are carried as unbounded `Int`; every Go conversion
  that can wrap is modelled explicitly (`wrap32`, `wrap64`).
* Finite `float32`/`float64` values are carried as exact rationals.  Go
  conversions that round (`float32(x)`, float formatting) are modelled as
  exact; no claim below depends on a value where the rounding is not the
  identity.  Where a Go source constant is itself rounded by conversion
  (e.g. `float32(math.MaxInt32) = 2^31`, `float32(math.MaxInt64) = 2^63`,
  `float64(math.MaxInt64) = 2^63`), the rounded value is written out at
  the use site.  NaN and the infinities are outside the model; no claim
  depends on them.
* Fallible Go functions returning `(*T, error)` become `Except GoErr T`.
* A Go runtime panic (failed type assertion in `LTAny`) is the `crash`
  outcome of `LTResult`.
-/

/-- A calendar date as produced by `time.Date(y, m, d, 0, 0, 0, 0, time.UTC)`:
all dates built below are normalized, with zero time-of-day, in UTC. -/
structure GoDate where
  year : Nat
  month : Nat
  day : Nat
deriving DecidableEq

/-- Chronological strict order on normalized dates.  `time.Time.Sub(a, b) > 0`
for two zero-time UTC dates is exactly lexicographic order on
(year, month, day). -/
def GoDate.ltb (a b : GoDate) : Bool :=
  a.year < b.year ||
    (a.year = b.year && (a.month < b.month ||
      (a.month = b.month && a.day < b.day)))

/-- The structured error values produced by the engine.  Each constructor
stands for one literal `fmt.Errorf` message of the Go source:
* `outOfRange src fn` — `"<src> out of range: <fn>"`;
* `cannotConvert fn` — `"cannot convert %v to ...: <fn>"`;
* `numError fn` — a `strconv` error returned unwrapped (the
  `Any2Float64` string case);
* `cannotConvertToString` / `cannotConvertToDate` — the assertion
  failures inside the current `GTAny`;
* `typeMismatch` — `"compared values must be of same type, ..."` (the
  `reflect.TypeOf` guard of the older `GTAny`);
* `unsupportedComparison` — `"unsupported comparison"`;
* `cannotCompareLT` — `"cannot compare: LTAny"`;
* `unsupportedComp op` — `"unsupported comparison: <op>"` (from
  `Comparer`). -/
inductive GoErr where
  | outOfRange (src fn : String)
  | cannotConvert (fn : String)
  | numError (fn : String)
  | cannotConvertToString
  | cannotConvertToDate
  | typeMismatch
  | unsupportedComparison
  | cannotCompareLT
  | unsupportedComp (op : String)
deriving DecidableEq

/-- A Go `any` value restricted to the dynamic types the engine inspects:
`nil`, `int`, `int32`, `int64`, `float32`, `float64`, `string`,
`time.Time`. -/
inductive GoVal where
  | vnil
  | vint (x : Int)
  | vi32 (x : Int)
  | vi64 (x : Int)
  | vf32 (q : ℚ)
  | vf64 (q : ℚ)
  | vstr (s : String)
  | vdate (d : GoDate)
deriving DecidableEq

/-- The dynamic-type tag of a `GoVal` (what `reflect.TypeOf` inspects). -/
inductive Tag where
  | tnil | tint | ti32 | ti64 | tf32 | tf64 | tstr | tdate
deriving DecidableEq

def tagOf : GoVal → Tag
  | .vnil => .tnil
  | .vint _ => .tint
  | .vi32 _ => .ti32
  | .vi64 _ => .ti64
  | .vf32 _ => .tf32
  | .vf64 _ => .tf64
  | .vstr _ => .tstr
  | .vdate _ => .tdate

/-- Go conversion `int32(x)`: truncation to 32 bits, two's complement. -/
def wrap32 (x : Int) : Int := (x + 2147483648) % 4294967296 - 2147483648

/-- Go conversion `int64(x)` / `int(x)` (64-bit): truncation to 64 bits. -/
def wrap64 (x : Int) : Int :=
  (x + 9223372036854775808) % 18446744073709551616 - 9223372036854775808

/-- Go conversion of a float to an integer type: truncation toward zero
(the wrap to the destination width is applied by the caller). -/
def ratTrunc (q : ℚ) : Int := if q < 0 then -((-q).floor) else q.floor

/-- ASCII decimal digit test (`'0' ≤ c ≤ '9'`). -/
def isDigitChar (c : Char) : Bool := 48 ≤ c.toNat && c.toNat ≤ 57

def digitVal (c : Char) : Nat := c.toNat - 48

/-- Base-10 digits of `n`, least significant first; the first argument is
recursion fuel (any fuel `≥ n` gives the digits of `n`, and the fuel is
always instantiated that way). -/
def natDigitsAux : Nat → Nat → List Nat
  | 0, _ => []
  | fuel + 1, n => if n = 0 then [] else n % 10 :: natDigitsAux fuel (n / 10)

/-- Base-10 digits of `n`, least significant first. -/
def natDigits (n : Nat) : List Nat := natDigitsAux n n

/-- Decimal digit characters of `n`, most significant first (`n > 0`). -/
def natDigitsChars (n : Nat) : List Char :=
  ((natDigits n).map (fun d => Char.ofNat (48 + d))).reverse

/-- Decimal rendering of a natural number, as Go `fmt` and `strconv`
produce it. -/
def goNatToString (n : Nat) : String :=
  if n = 0 then "0" else ⟨natDigitsChars n⟩

/-- Decimal rendering of an integer (`fmt.Sprintf("%v", x)` /
`fmt.Sprintf("%d", x)` for Go integer types). -/
def goIntToString (x : Int) : String :=
  if x < 0 then ⟨Char.ofNat 45 :: natDigitsChars x.natAbs⟩
  else goNatToString x.toNat

/-- `strconv.ParseInt(s, 10, bs)`: optional sign, then base-10 digits;
the value must fit in `bs` signed bits.  (Underscore separators and
non-decimal bases require base 0 and are rejected here, as in Go with an
explicit base of 10.)  Errors are collapsed to `Unit` because every
caller in the engine replaces them with its own message. -/
def parseIntGo (s : String) (bs : Nat) : Except Unit Int :=
  let cs := s.data
  let signAndRest : Bool × List Char :=
    match cs with
    | c :: t =>
      if c = Char.ofNat 45 then (true, t)
      else if c = Char.ofNat 43 then (false, t)
      else (false, cs)
    | [] => (false, [])
  let neg := signAndRest.1
  let ds := signAndRest.2
  if ds = [] then .error ()
  else if ds.all isDigitChar then
    let n : Nat := ds.foldl (fun a c => 10 * a + digitVal c) 0
    if neg then
      if n ≤ 2 ^ (bs - 1) then .ok (-(n : Int)) else .error ()
    else
      if n ≤ 2 ^ (bs - 1) - 1 then .ok (n : Int) else .error ()
  else .error ()

/-- Go string comparison `x < y`: byte-wise lexicographic order on the
UTF-8 encoding.  UTF-8 byte order coincides with code-point order, so it
is modelled as lexicographic order on the code points. -/
def goStrLtb : List Char → List Char → Bool
  | [], [] => false
  | [], _ :: _ => true
  | _ :: _, [] => false
  | a :: as, b :: bs =>
    if a.toNat < b.toNat then true
    else if a.toNat = b.toNat then goStrLtb as bs
    else false

/-- `strings.ReplaceAll(s, "'", "")`: drop every single-quote character. -/
def stripQuotes (s : String) : String :=
  ⟨s.data.filter (fun c => c.toNat ≠ 39)⟩

/- ***** Go `time.Parse` for the seven layouts used by `Any2Date` ***** -/

/-- Layout tokens: the standard chunks Go's format scanner produces for the
seven layout strings of `Any2Date` (literal characters, `2006`, `1`, `01`,
`2`, `02`, `Jan`, `January`). -/
inductive Tok where
  | lit (c : Char)
  | year4
  | mon
  | mon0
  | monS
  | monL
  | day
  | day0
deriving DecidableEq

/-- Go `time` month tables. -/
def longMonthNames : List String :=
  ["January", "February", "March", "April", "May", "June", "July",
   "August", "September", "October", "November", "December"]

def shortMonthNames : List String :=
  ["Jan", "Feb", "Mar", "Apr", "May", "Jun", "Jul", "Aug", "Sep", "Oct",
   "Nov", "Dec"]

/-- Case-insensitive ASCII character match, as Go `time`'s `match` does it:
equal bytes, or both map under `| 0x20` to the same lower-case letter. -/
def charMatch (c1 c2 : Char) : Bool :=
  c1 = c2 ||
    (c1.toNat ||| 32 = c2.toNat ||| 32 &&
      97 ≤ c1.toNat ||| 32 && c1.toNat ||| 32 ≤ 122)

/-- Consume `name` from the front of `cs` case-insensitively; return the
rest on success. -/
def matchPrefix : List Char → List Char → Option (List Char)
  | [], rest => some rest
  | _ :: _, [] => none
  | n :: ns, c :: cs => if charMatch c n then matchPrefix ns cs else none

/-- Go `time`'s `lookup`: first table entry that is a (case-insensitive)
prefix of the input wins; returns its 1-based index and the rest. -/
def lookupTab : List String → Nat → List Char → Option (Nat × List Char)
  | [], _, _ => none
  | t :: ts, i, cs =>
    match matchPrefix t.data cs with
    | some rest => some (i + 1, rest)
    | none => lookupTab ts (i + 1) cs

/-- Go `getnum` with `fixed = false`: one or two decimal digits. -/
def getnum : List Char → Option (Nat × List Char)
  | [] => none
  | c1 :: rest =>
    if isDigitChar c1 then
      match rest with
      | c2 :: rest2 =>
        if isDigitChar c2 then some (10 * digitVal c1 + digitVal c2, rest2)
        else some (digitVal c1, rest)
      | [] => some (digitVal c1, [])
    else none

/-- Go `getnum` with `fixed = true`: exactly two decimal digits. -/
def getnum2 : List Char → Option (Nat × List Char)
  | c1 :: c2 :: rest =>
    if isDigitChar c1 && isDigitChar c2 then
      some (10 * digitVal c1 + digitVal c2, rest)
    else none
  | _ => none

/-- The `2006` chunk: exactly four decimal digits.  (Go additionally
accepts a leading sign for years; no input below reaches that path, and a
sign always fails the surrounding chunks of these seven layouts.) -/
def getnum4 : List Char → Option (Nat × List Char)
  | c1 :: c2 :: c3 :: c4 :: rest =>
    if isDigitChar c1 && isDigitChar c2 && isDigitChar c3 && isDigitChar c4
    then
      some (1000 * digitVal c1 + 100 * digitVal c2 + 10 * digitVal c3 +
        digitVal c4, rest)
    else none
  | _ => none

/-- Parse state: the date fields `time.Parse` accumulates (its defaults
are year 0, January 1). -/
structure PD where
  y : Nat
  m : Nat
  d : Nat
deriving DecidableEq

def runTok (t : Tok) (st : PD × List Char) : Option (PD × List Char) :=
  match t with
  | .lit c =>
    match st.2 with
    | c' :: rest => if c' = c then some (st.1, rest) else none
    | [] => none
  | .year4 => (getnum4 st.2).map (fun p => ({ st.1 with y := p.1 }, p.2))
  | .mon => (getnum st.2).map (fun p => ({ st.1 with m := p.1 }, p.2))
  | .mon0 => (getnum2 st.2).map (fun p => ({ st.1 with m := p.1 }, p.2))
  | .monS =>
    (lookupTab shortMonthNames 0 st.2).map
      (fun p => ({ st.1 with m := p.1 }, p.2))
  | .monL =>
    (lookupTab longMonthNames 0 st.2).map
      (fun p => ({ st.1 with m := p.1 }, p.2))
  | .day => (getnum st.2).map (fun p => ({ st.1 with d := p.1 }, p.2))
  | .day0 => (getnum2 st.2).map (fun p => ({ st.1 with d := p.1 }, p.2))

def runLayout : List Tok → PD × List Char → Option (PD × List Char)
  | [], st => some st
  | t :: ts, st => (runTok t st).bind (runLayout ts)

/-- `time` leap-year rule. -/
def isLeap (y : Nat) : Bool := y % 4 = 0 && (y % 100 ≠ 0 || y % 400 = 0)

/-- Days in a month, as `time`'s `daysIn`. -/
def daysIn (m y : Nat) : Nat :=
  if m = 2 && isLeap y then 29
  else [31, 28, 31, 30, 31, 30, 31, 31, 30, 31, 30, 31].getD (m - 1) 0

/-- The range checks `time.Parse` applies after scanning: month 1–12 and
day 1–`daysIn`. -/
def validDate (p : PD) : Bool :=
  1 ≤ p.m && p.m ≤ 12 && 1 ≤ p.d && p.d ≤ daysIn p.m p.y

/-- `time.Parse(layout, s)` for the layouts of `Any2Date`: scan all chunks,
require the input exhausted, apply the range checks.  The result is the
UTC date with zero time-of-day. -/
def goTimeParse (toks : List Tok) (s : List Char) : Option GoDate :=
  match runLayout toks (⟨0, 1, 1⟩, s) with
  | some (pd, []) =>
    if validDate pd then some ⟨pd.y, pd.m, pd.d⟩ else none
  | _ => none

/-- The seven layout strings of `Any2Date`, tokenized, in source order:
`"20060102"`, `"1/2/2006"`, `"01/02/2006"`, `"Jan 2, 2006"`,
`"January 2, 2006"`, `"Jan 2 2006"`, `"January 2 2006"`. -/
def dateFormats : List (List Tok) :=
  [[.year4, .mon0, .day0],
   [.mon, .lit '/', .day, .lit '/', .year4],
   [.mon0, .lit '/', .day0, .lit '/', .year4],
   [.monS, .lit ' ', .day, .lit ',', .lit ' ', .year4],
   [.monL, .lit ' ', .day, .lit ',', .lit ' ', .year4],
   [.monS, .lit ' ', .day, .lit ' ', .year4],
   [.monL, .lit ' ', .day, .lit ' ', .year4]]

def digitsToNat (ds : List Char) : Nat :=
  ds.foldl (fun a c => 10 * a + digitVal c) 0

/-- `strconv.ParseFloat(s, bitSize)`, decimal grammar only: optional
sign, digits with an optional fractional part, optional decimal exponent,
evaluated exactly over `ℚ`.  Not modelled (unreachable from every claim
below): rounding to the nearest binary float, overflow to infinity with
`ErrRange`, the `inf`/`nan` spellings, hexadecimal mantissas, and
underscore separators. -/
def parseFloatGo (s : String) : Except Unit ℚ :=
  let cs := s.data
  let signAndRest : Bool × List Char :=
    match cs with
    | c :: t =>
      if c = Char.ofNat 45 then (true, t)
      else if c = Char.ofNat 43 then (false, t)
      else (false, cs)
    | [] => (false, [])
  let neg := signAndRest.1
  let r0 := signAndRest.2
  let ds1 := r0.takeWhile isDigitChar
  let r1 := r0.dropWhile isDigitChar
  let fracAndRest : List Char × List Char :=
    match r1 with
    | c :: t =>
      if c = '.' then (t.takeWhile isDigitChar, t.dropWhile isDigitChar)
      else ([], r1)
    | [] => ([], r1)
  let ds2 := fracAndRest.1
  let r2 := fracAndRest.2
  if ds1 = [] ∧ ds2 = [] then .error ()
  else
    let mant : ℚ := ((digitsToNat (ds1 ++ ds2) : ℚ)) / (10 : ℚ) ^ ds2.length
    let mant : ℚ := if neg then -mant else mant
    match r2 with
    | [] => .ok mant
    | e :: t =>
      if e = 'e' ∨ e = 'E' then
        let esignAndRest : Bool × List Char :=
          match t with
          | c :: t2 =>
            if c = Char.ofNat 45 then (true, t2)
            else if c = Char.ofNat 43 then (false, t2)
            else (false, t)
          | [] => (false, [])
        let eds := esignAndRest.2
        if eds ≠ [] ∧ eds.all isDigitChar = true ∧
            eds = esignAndRest.2.takeWhile isDigitChar ∧
            esignAndRest.2.dropWhile isDigitChar = [] then
          let ex : Int := if esignAndRest.1 then -(digitsToNat eds : Int)
            else (digitsToNat eds : Int)
          .ok (mant * (10 : ℚ) ^ ex)
        else .error ()
      else .error ()

/-- `Any2Date`, from the source (identical in both snapshots): the string
path strips single quotes and tries the seven formats in order; dates pass
through; `int`/`int32`/`int64` are rendered with `fmt.Sprintf("%d", x)`
and re-dispatched to the string path; everything else falls through to
the `cannot convert` error. -/
def any2DateStr (s : String) : Except GoErr GoDate :=
  match dateFormats.findSome? (fun f => goTimeParse f (stripQuotes s).data) with
  | some d => .ok d
  | none => .error (.cannotConvert "Any2Date")

def Any2Date : GoVal → Except GoErr GoDate
  | .vstr s => any2DateStr s
  | .vdate t => .ok t
  | .vint x => any2DateStr (goIntToString x)
  | .vi32 x => any2DateStr (goIntToString x)
  | .vi64 x => any2DateStr (goIntToString x)
  | _ => .error (.cannotConvert "Any2Date")

/-- `Any2Float64`.  Integer sources are converted exactly (Go's
`float64(x)` rounds above `2^53`; see the header note on floats). -/
def Any2Float64 : GoVal → Except GoErr ℚ
  | .vint x => .ok (x : ℚ)
  | .vi32 x => .ok (x : ℚ)
  | .vi64 x => .ok (x : ℚ)
  | .vf32 q => .ok q
  | .vf64 q => .ok q
  | .vstr s =>
    match parseFloatGo s with
    | .ok q => .ok q
    | .error _ => .error (.numError "Any2Float64")
  | _ => .error (.cannotConvert "Any2Float64")

/-- `Any2Float32`.  The narrowing `float32(...)` of the source rounds;
modelled exactly (see the header note on floats). -/
def Any2Float32 : GoVal → Except GoErr ℚ
  | .vint x => .ok (x : ℚ)
  | .vi32 x => .ok (x : ℚ)
  | .vi64 x => .ok (x : ℚ)
  | .vf32 q => .ok q
  | .vf64 q => .ok q
  | .vstr s =>
    match parseFloatGo s with
    | .ok q => .ok q
    | .error _ => .error (.cannotConvert "Any2Float32")
  | _ => .error (.cannotConvert "Any2Float32")

/-- `Any2Int64`.  The float bounds are the Go constants `math.MaxInt64`
and `math.MinInt64` converted to the source float type:
`float32(math.MaxInt64) = float64(math.MaxInt64) = 2^63`,
`float32(math.MinInt64) = float64(math.MinInt64) = -2^63`. -/
def Any2Int64 : GoVal → Except GoErr Int
  | .vint x => .ok x
  | .vi32 x => .ok x
  | .vi64 x => .ok x
  | .vf32 q =>
    if q > 9223372036854775808 ∨ q < -9223372036854775808 then
      .error (.outOfRange "float32" "Any2Int64")
    else .ok (wrap64 (ratTrunc q))
  | .vf64 q =>
    if q > 9223372036854775808 ∨ q < -9223372036854775808 then
      .error (.outOfRange "float64" "Any2Int64")
    else .ok (wrap64 (ratTrunc q))
  | .vstr s =>
    match parseIntGo s 64 with
    | .ok v => .ok v
    | .error _ => .error (.cannotConvert "Any2Int64")
  | _ => .error (.cannotConvert "Any2Int64")

/-- `Any2Int32`.  The `int` case of the source has no range check: Go's
`int32(x)` silently truncates (hence `wrap32`).  The float bounds are
`math.MaxInt32`/`math.MinInt32` converted to the source float type:
`float32(math.MaxInt32) = 2^31` (rounded up), `float64(math.MaxInt32) =
2147483647` (exact), and the minima `-2^31` (exact in both). -/
def Any2Int32 : GoVal → Except GoErr Int
  | .vint x => .ok (wrap32 x)
  | .vi32 x => .ok x
  | .vi64 x =>
    if x > 2147483647 ∨ x < -2147483648 then
      .error (.outOfRange "int" "Any2Int32")
    else .ok (wrap32 x)
  | .vf32 q =>
    if q > 2147483648 ∨ q < -2147483648 then
      .error (.outOfRange "float32" "Any2Int32")
    else .ok (wrap32 (ratTrunc q))
  | .vf64 q =>
    if q > 2147483647 ∨ q < -2147483648 then
      .error (.outOfRange "float64" "Any2Int32")
    else .ok (wrap32 (ratTrunc q))
  | .vstr s =>
    match parseIntGo s 32 with
    | .ok v => .ok (wrap32 v)
    | .error _ => .error (.cannotConvert "Any2Int32")
  | _ => .error (.cannotConvert "Any2Int32")

/-- `Any2Int` on a 64-bit platform (`int` ≡ 64 bits, `math.MaxInt =
2^63-1`): the `int64` range check can never fire, the float bounds
convert to `±2^63` as in `Any2Int64` — and the string case parses with
`strconv.ParseInt(x, 10, 32)`, i.e. 32-bit bounds (so of the source). -/
def Any2Int : GoVal → Except GoErr Int
  | .vint x => .ok x
  | .vi32 x => .ok x
  | .vi64 x =>
    if x > 9223372036854775807 ∨ x < -9223372036854775808 then
      .error (.outOfRange "int64" "Any2Int")
    else .ok x
  | .vf32 q =>
    if q > 9223372036854775808 ∨ q < -9223372036854775808 then
      .error (.outOfRange "float32" "Any2Int")
    else .ok (wrap64 (ratTrunc q))
  | .vf64 q =>
    if q > 9223372036854775808 ∨ q < -9223372036854775808 then
      .error (.outOfRange "float64" "Any2Int")
    else .ok (wrap64 (ratTrunc q))
  | .vstr s =>
    match parseIntGo s 32 with
    | .ok v => .ok v
    | .error _ => .error (.cannotConvert "Any2Int")
  | _ => .error (.cannotConvert "Any2Int")

/-- Zero-padded four-digit year, as Go's `Format` renders the `2006`
chunk. -/
def pad4 (n : Nat) : String :=
  let s := goNatToString n
  ⟨List.replicate (4 - s.length) (Char.ofNat 48)⟩ ++ s

/-- `fmt.Sprintf("%0.2f", q)`: two decimal digits.  Rounding of the tie
cases differs from `fmt`'s float-exact rounding; no claim depends on it. -/
def formatF2 (q : ℚ) : String :=
  let n : Int := round (q * 100)
  let a := n.natAbs
  (if n < 0 then "-" else "") ++ goNatToString (a / 100) ++ "." ++
    ⟨[Char.ofNat (48 + a % 100 / 10), Char.ofNat (48 + a % 100 % 10)]⟩

/-- `Any2String`: dates as `M/D/YYYY` (layout `"1/2/2006"`), floats with
two decimals (`%0.2f`), strings unchanged, everything else through
`fmt.Sprintf("%v", x)` (decimal for the integer tags, `<nil>` for nil). -/
def Any2String : GoVal → String
  | .vstr s => s
  | .vdate t =>
    goNatToString t.month ++ "/" ++ goNatToString t.day ++ "/" ++ pad4 t.year
  | .vf32 q => formatF2 q
  | .vf64 q => formatF2 q
  | .vint x => goIntToString x
  | .vi32 x => goIntToString x
  | .vi64 x => goIntToString x
  | .vnil => "<nil>"

/-- `GTAny` of the current snapshot (`src/unnamed/part_000`, lines
557–614): nil short-circuits to `true`; a string/date left operand
type-asserts the right operand; a numeric left operand coerces the right
operand through the matching `Any2*` function and propagates its error;
any other left tag (notably the platform `int`) is an unsupported
comparison. -/
def GTAny (xa xb : GoVal) : Except GoErr Bool :=
  if xb = .vnil ∨ xa = .vnil then .ok true
  else
    match xa with
    | .vstr x =>
      match xb with
      | .vstr y => .ok (goStrLtb (stripQuotes y).data (stripQuotes x).data)
      | _ => .error .cannotConvertToString
    | .vi32 x =>
      match Any2Int32 xb with
      | .error e => .error e
      | .ok yy => .ok (decide (yy < x))
    | .vi64 x =>
      match Any2Int64 xb with
      | .error e => .error e
      | .ok yy => .ok (decide (yy < x))
    | .vf32 x =>
      match Any2Float32 xb with
      | .error e => .error e
      | .ok yy => .ok (decide (yy < x))
    | .vf64 x =>
      match Any2Float64 xb with
      | .error e => .error e
      | .ok yy => .ok (decide (yy < x))
    | .vdate x =>
      match xb with
      | .vdate t => .ok (GoDate.ltb t x)
      | _ => .error .cannotConvertToDate
    | _ => .error .unsupportedComparison

/-- `LTAny` (identical in both snapshots), with the Go type assertions on
the right operand made explicit: a right operand of a different dynamic
type makes the assertion fail, which is a runtime panic — the `crash`
outcome.  Only the `default` arm (left tag outside the six supported
ones) returns the `cannot compare: LTAny` error. -/
inductive LTResult where
  | ok (b : Bool)
  | err (e : GoErr)
  | crash
deriving DecidableEq

def LTAny (x y : GoVal) : LTResult :=
  match x with
  | .vf64 xt =>
    match y with
    | .vf64 z => .ok (decide (xt < z))
    | _ => .crash
  | .vf32 xt =>
    match y with
    | .vf32 z => .ok (decide (xt < z))
    | _ => .crash
  | .vi64 xt =>
    match y with
    | .vi64 z => .ok (decide (xt < z))
    | _ => .crash
  | .vi32 xt =>
    match y with
    | .vi32 z => .ok (decide (xt < z))
    | _ => .crash
  | .vstr xt =>
    match y with
    | .vstr z => .ok (goStrLtb xt.data z.data)
    | _ => .crash
  | .vdate xt =>
    match y with
    | .vdate z => .ok (GoDate.ltb xt z)
    | _ => .crash
  | _ => .err .cannotCompareLT

/-- `Comparer`'s first step, applied to each operand: reinterpret as a
date when `Any2Date` succeeds, otherwise keep the operand. -/
def dateStep (x : GoVal) : GoVal :=
  match Any2Date x with
  | .ok t => .vdate t
  | .error _ => x

/-- `Comparer` of the current snapshot (its body is identical in both
snapshots; this one calls the current `GTAny`). -/
def Comparer (xa xb : GoVal) (comp : String) : Except GoErr Bool :=
  let xa := dateStep xa
  let xb := dateStep xb
  match GTAny xa xb with
  | .error e1 => .error e1
  | .ok test1 =>
    match GTAny xb xa with
    | .error e2 => .error e2
    | .ok test2 =>
      match comp with
      | ">" => .ok test1
      | ">=" => .ok (!test2)
      | "==" => .ok (!test1 && !test2)
      | "!=" => .ok (test1 || test2)
      | "<" => .ok test2
      | "<=" => .ok (!test1)
      | _ => .error (.unsupportedComp comp)

namespace V0

/-- `GTAny` of the older snapshot (`src/utilities.go`, lines 410–437):
nil short-circuits to `true`; differing dynamic types fail the
`reflect.TypeOf` guard; equal supported tags compare directly; the final
catch-all (reached by the platform `int` tag) is the unsupported
comparison error. -/
def GTAny (xa xb : GoVal) : Except GoErr Bool :=
  if xb = .vnil ∨ xa = .vnil then .ok true
  else if tagOf xa ≠ tagOf xb then .error .typeMismatch
  else
    match xa, xb with
    | .vstr x, .vstr y =>
      .ok (goStrLtb (stripQuotes y).data (stripQuotes x).data)
    | .vi32 x, .vi32 y => .ok (decide (y < x))
    | .vi64 x, .vi64 y => .ok (decide (y < x))
    | .vf32 x, .vf32 y => .ok (decide (y < x))
    | .vf64 x, .vf64 y => .ok (decide (y < x))
    | .vdate x, .vdate y => .ok (GoDate.ltb y x)
    | _, _ => .error .unsupportedComparison

/-- `Comparer` of the older snapshot: same body, calling `V0.GTAny`. -/
def Comparer (xa xb : GoVal) (comp : String) : Except GoErr Bool :=
  let xa := dateStep xa
  let xb := dateStep xb
  match GTAny xa xb with
  | .error e1 => .error e1
  | .ok test1 =>
    match GTAny xb xa with
    | .error e2 => .error e2
    | .ok test2 =>
      match comp with
      | ">" => .ok test1
      | ">=" => .ok (!test2)
      | "==" => .ok (!test1 && !test2)
      | "!=" => .ok (test1 || test2)
      | "<" => .ok test2
      | "<=" => .ok (!test1)
      | _ => .error (.unsupportedComp comp)

end V0

deriving instance DecidableEq for Except

/-- The claim-side coercion for `GTAny`'s cross-tag step, written from
the spec's words ("attempts to coerce `b` into `a`'s tag, reusing the
coercion functions of section 4.1"): dispatch on the target tag to the
matching `Any2*` function.  This definition follows the specification,
not the source; it exists to be compared against `GTAny`. -/
def specCoerceToTag (t : Tag) (b : GoVal) : Except GoErr GoVal :=
  match t with
  | .tint => (Any2Int b).map .vint
  | .ti32 => (Any2Int32 b).map .vi32
  | .ti64 => (Any2Int64 b).map .vi64
  | .tf32 => (Any2Float32 b).map .vf32
  | .tf64 => (Any2Float64 b).map .vf64
  | .tstr => .ok (.vstr (Any2String b))
  | .tdate => (Any2Date b).map .vdate
  | .tnil => .error .unsupportedComparison

/-- The six dynamic types `LTAny`'s switch handles (its `default` arm
returns the error). -/
def ltSupported : Tag → Bool
  | .tf64 | .tf32 | .ti64 | .ti32 | .tstr | .tdate => true
  | _ => false

/-- The six comparable tags of the claim about same-tag `GTAny`
comparisons: string, int32, int64, float32, float64, date. -/
def comparableTag : Tag → Bool
  | .tstr | .ti32 | .ti64 | .tf32 | .tf64 | .tdate => true
  | _ => false

/- ***** Helper lemmas ***** -/

theorem wrap32_eq_self (x : Int) (h1 : -2147483648 ≤ x) (h2 : x ≤ 2147483647) :
    wrap32 x = x := by
  unfold wrap32
  omega

theorem goStrLtb_asymm (as bs : List Char) (h1 : goStrLtb as bs = true)
    (h2 : goStrLtb bs as = true) : False := by
  induction as generalizing bs with
  | nil => cases bs <;> simp [goStrLtb] at h1 h2
  | cons a as ih =>
    cases bs with
    | nil => simp [goStrLtb] at h1
    | cons b bs =>
      simp only [goStrLtb] at h1 h2
      by_cases hab : a.toNat < b.toNat
      · have hba : ¬ b.toNat < a.toNat := by omega
        have hbea : ¬ b.toNat = a.toNat := by omega
        rw [if_neg hba, if_neg hbea] at h2
        exact absurd h2 (by simp)
      · rw [if_neg hab] at h1
        by_cases heq : a.toNat = b.toNat
        · rw [if_pos heq] at h1
          rw [if_neg (by omega), if_pos heq.symm] at h2
          exact ih bs h1 h2
        · rw [if_neg heq] at h1
          exact absurd h1 (by simp)

theorem GoDate.ltb_asymm (a b : GoDate) (h1 : a.ltb b = true)
    (h2 : b.ltb a = true) : False := by
  simp only [GoDate.ltb, Bool.or_eq_true, Bool.and_eq_true,
    decide_eq_true_eq] at h1 h2
  omega

/- ***** Claim theorems ***** -/

/-- C6: for every pair of inputs, if either operand is nil, `GTAny`
returns true with no error, unconditionally and regardless of the other
operand's tag or value — in both snapshots of `GTAny`. -/
theorem GTAny_nil_unconditional_true (a b : GoVal)
    (h : a = GoVal.vnil ∨ b = GoVal.vnil) :
    GTAny a b = .ok true ∧ V0.GTAny a b = .ok true := by
  rcases h with h | h <;> subst h <;> exact ⟨by simp [GTAny], by simp [V0.GTAny]⟩

/-- Witness for C6 at `a = nil`, `b = int32(3)`. -/
theorem GTAny_nil_unconditional_true_w :
    GTAny GoVal.vnil (GoVal.vi32 3) = .ok true ∧
      V0.GTAny GoVal.vnil (GoVal.vi32 3) = .ok true :=
  GTAny_nil_unconditional_true GoVal.vnil (GoVal.vi32 3) (Or.inl rfl)

/-- C2 (code bug): `Any2Int32` does reject `int64(math.MaxInt64)`,
`float32(math.MaxInt64) = 2^63` and `float64(math.MaxInt64) = 2^63` with
range-overflow errors — but the claim's universal part fails: the
platform-int case of `Any2Int32` has no range check at all, so
`Any2Int32(int(2^31))` silently truncates to `-2^31` instead of failing
(while the same quantity as an `int64` source is rejected). -/
theorem Any2Int32_narrowing_check :
    Any2Int32 (GoVal.vi64 9223372036854775807) =
      .error (.outOfRange "int" "Any2Int32") ∧
    Any2Int32 (GoVal.vf32 9223372036854775808) =
      .error (.outOfRange "float32" "Any2Int32") ∧
    Any2Int32 (GoVal.vf64 9223372036854775808) =
      .error (.outOfRange "float64" "Any2Int32") ∧
    Any2Int32 (GoVal.vint 2147483648) = .ok (-2147483648) ∧
    Any2Int32 (GoVal.vi64 2147483648) =
      .error (.outOfRange "int" "Any2Int32") := by
  refine ⟨by decide, ?_, ?_, by decide, by decide⟩ <;> decide

/-- C9 (code bug): `Any2Int`'s string case parses with 32-bit bounds
(`strconv.ParseInt(x, 10, 32)`) although the platform `int` is 64-bit:
the decimal string `"2147483648"` denotes a value representable in `int`
— `Any2Int` itself accepts it from an `int64` source, and `Any2Int64`'s
correctly-sized parse of the very same string succeeds — yet
`Any2Int("2147483648")` fails. -/
theorem Any2Int_string_parse_width :
    Any2Int (GoVal.vstr "2147483648") = .error (.cannotConvert "Any2Int") ∧
    Any2Int64 (GoVal.vstr "2147483648") = .ok 2147483648 ∧
    Any2Int (GoVal.vi64 2147483648) = .ok 2147483648 ∧
    Any2Int (GoVal.vstr "2147483647") = .ok 2147483647 := by
  refine ⟨by decide, by decide, by decide, by decide⟩

/-- C3 counterexample: in Go the untyped constants of
`Comparer(5, 3, ">")` and `Comparer(5, 5, "==")` enter `any` as platform
`int` values, and `GTAny` (either snapshot) has no case for that tag:
both calls return the unsupported-comparison error instead of true. -/
theorem Comparer_int_literals_cex :
    V0.Comparer (GoVal.vint 5) (GoVal.vint 3) ">" =
      .error .unsupportedComparison ∧
    V0.Comparer (GoVal.vint 5) (GoVal.vint 5) "==" =
      .error .unsupportedComparison ∧
    Comparer (GoVal.vint 5) (GoVal.vint 3) ">" =
      .error .unsupportedComparison := by
  refine ⟨by decide, by decide, by decide⟩

/-- C3 (amended): with the numeric operands carried under a tag `GTAny`
supports (here `int32`), `Comparer(5, 3, ">")` and `Comparer(5, 5, "==")`
are true with no error, and a date-formatted string compares equal to the
literal date it denotes; this holds in both snapshots. -/
theorem Comparer_examples :
    V0.Comparer (GoVal.vi32 5) (GoVal.vi32 3) ">" = .ok true ∧
    V0.Comparer (GoVal.vi32 5) (GoVal.vi32 5) "==" = .ok true ∧
    V0.Comparer (GoVal.vstr "20210101") (GoVal.vdate ⟨2021, 1, 1⟩) "==" =
      .ok true ∧
    Comparer (GoVal.vi32 5) (GoVal.vi32 3) ">" = .ok true ∧
    Comparer (GoVal.vi32 5) (GoVal.vi32 5) "==" = .ok true ∧
    Comparer (GoVal.vstr "20210101") (GoVal.vdate ⟨2021, 1, 1⟩) "==" =
      .ok true := by
  refine ⟨by decide, by decide, by decide, by decide, by decide, by decide⟩

/-- C5: `Any2Date` on a string strips every single quote, then tries the
seven fixed formats in priority order (`YYYYMMDD`, `M/D/YYYY`,
`MM/DD/YYYY`, `Mon D, YYYY`, `Month D, YYYY`, `Mon D YYYY`,
`Month D YYYY`), returning the first success; it fails when no format
matches or the components are an impossible calendar date:
`"20010001"` fails (month 00), `"feb 30, 2000"` fails (no Feb 30),
`"October 3, 2001"` parses to 2001-10-03. -/
theorem Any2Date_string_formats :
    (∀ s : String, Any2Date (GoVal.vstr s) =
      match dateFormats.findSome?
          (fun f => goTimeParse f (stripQuotes s).data) with
      | some d => .ok d
      | none => .error (.cannotConvert "Any2Date")) ∧
    Any2Date (GoVal.vstr "20010001") = .error (.cannotConvert "Any2Date") ∧
    Any2Date (GoVal.vstr "feb 30, 2000") =
      .error (.cannotConvert "Any2Date") ∧
    Any2Date (GoVal.vstr "October 3, 2001") = .ok ⟨2001, 10, 3⟩ :=
  ⟨fun _ => rfl, by decide, by decide, by decide⟩

/-- C1 counterexample: the claim "for differing non-nil tags, `GTAny`
coerces `b` into `a`'s tag with the §4.1 coercion functions and
propagates only the coercion failure" is false at
`a = date 2000-01-01`, `b = "20010101"`: the §4.1 coercion of `b` into
the date tag succeeds (`Any2Date` parses the string), yet `GTAny`
returns the failed-assertion error instead of comparing. -/
theorem GTAny_spec_coercion_cex :
    ¬ (∀ a b : GoVal, a ≠ GoVal.vnil → b ≠ GoVal.vnil →
        tagOf a ≠ tagOf b →
        GTAny a b =
          (specCoerceToTag (tagOf a) b).bind (fun y => GTAny a y)) := by
  intro h
  have := h (GoVal.vdate ⟨2000, 1, 1⟩) (GoVal.vstr "20010101")
    (by decide) (by decide) (by decide)
  exact absurd this (by decide)

/-- C1 (amended): for a non-nil `b` of a tag differing from `a`'s, the
current `GTAny` coerces `b` through the matching `Any2*` function —
propagating that coercion's failure as the comparison failure — only
when `a`'s tag is numeric (`int32`, `int64`, `float32`, `float64`); a
string or date left operand fails its type assertion outright without
attempting the §4.1 coercion, and a platform-int left operand is an
unsupported comparison.  (In the older snapshot's `GTAny`, every
cross-tag pair fails the `reflect.TypeOf` guard instead.) -/
theorem GTAny_cross_tag (a b : GoVal) (hb : b ≠ GoVal.vnil)
    (hab : tagOf a ≠ tagOf b) :
    GTAny a b =
      match a with
      | .vi32 x => (Any2Int32 b).map (fun y => decide (y < x))
      | .vi64 x => (Any2Int64 b).map (fun y => decide (y < x))
      | .vf32 x => (Any2Float32 b).map (fun y => decide (y < x))
      | .vf64 x => (Any2Float64 b).map (fun y => decide (y < x))
      | .vstr _ => .error .cannotConvertToString
      | .vdate _ => .error .cannotConvertToDate
      | .vint _ => .error .unsupportedComparison
      | .vnil => .ok true := by
  cases a with
  | vnil => simp [GTAny]
  | vi32 x =>
    have hg : ¬ (b = GoVal.vnil ∨ GoVal.vi32 x = GoVal.vnil) := by simp [hb]
    rw [GTAny, if_neg hg]
    cases hA : Any2Int32 b <;> simp [hA, Except.map]
  | vi64 x =>
    have hg : ¬ (b = GoVal.vnil ∨ GoVal.vi64 x = GoVal.vnil) := by simp [hb]
    rw [GTAny, if_neg hg]
    cases hA : Any2Int64 b <;> simp [hA, Except.map]
  | vf32 x =>
    have hg : ¬ (b = GoVal.vnil ∨ GoVal.vf32 x = GoVal.vnil) := by simp [hb]
    rw [GTAny, if_neg hg]
    cases hA : Any2Float32 b <;> simp [hA, Except.map]
  | vf64 x =>
    have hg : ¬ (b = GoVal.vnil ∨ GoVal.vf64 x = GoVal.vnil) := by simp [hb]
    rw [GTAny, if_neg hg]
    cases hA : Any2Float64 b <;> simp [hA, Except.map]
  | vstr x =>
    have hg : ¬ (b = GoVal.vnil ∨ GoVal.vstr x = GoVal.vnil) := by simp [hb]
    rw [GTAny, if_neg hg]
    cases b <;> simp_all [tagOf]
  | vdate x =>
    have hg : ¬ (b = GoVal.vnil ∨ GoVal.vdate x = GoVal.vnil) := by simp [hb]
    rw [GTAny, if_neg hg]
    cases b <;> simp_all [tagOf]
  | vint x =>
    have hg : ¬ (b = GoVal.vnil ∨ GoVal.vint x = GoVal.vnil) := by simp [hb]
    rw [GTAny, if_neg hg]
    all_goals simp

/-- Witness for the amended C1 at `a = int32(5)`, `b = int64(7)`. -/
theorem GTAny_cross_tag_w :
    (GoVal.vi64 7 ≠ GoVal.vnil ∧
      tagOf (GoVal.vi32 5) ≠ tagOf (GoVal.vi64 7)) ∧
    GTAny (GoVal.vi32 5) (GoVal.vi64 7) =
      (Any2Int32 (GoVal.vi64 7)).map (fun y => decide (y < 5)) :=
  ⟨⟨by decide, by decide⟩,
    GTAny_cross_tag (GoVal.vi32 5) (GoVal.vi64 7) (by decide) (by decide)⟩

/-- C4: after the date-reinterpretation step, `Comparer` computes
`gt = GTAny(a, b)` and `lt = GTAny(b, a)` and returns `gt` for `">"`,
`!lt` for `">="`, `!gt && !lt` for `"=="`, `gt || lt` for `"!="`, `lt`
for `"<"` and `!gt` for `"<="`; a failure of either `GTAny` call is
returned as-is with no boolean; and any operator string outside the six
fails for all operands. -/
theorem Comparer_operator_semantics :
    (∀ a b op e, V0.GTAny (dateStep a) (dateStep b) = .error e →
      V0.Comparer a b op = .error e) ∧
    (∀ a b op gt e, V0.GTAny (dateStep a) (dateStep b) = .ok gt →
      V0.GTAny (dateStep b) (dateStep a) = .error e →
      V0.Comparer a b op = .error e) ∧
    (∀ a b op gt lt, V0.GTAny (dateStep a) (dateStep b) = .ok gt →
      V0.GTAny (dateStep b) (dateStep a) = .ok lt →
      V0.Comparer a b op =
        match op with
        | ">" => .ok gt
        | ">=" => .ok (!lt)
        | "==" => .ok (!gt && !lt)
        | "!=" => .ok (gt || lt)
        | "<" => .ok lt
        | "<=" => .ok (!gt)
        | _ => .error (.unsupportedComp op)) ∧
    (∀ a b op, op ∉ ([">", ">=", "==", "!=", "<", "<="] : List String) →
      ∃ e, V0.Comparer a b op = .error e) := by
  refine ⟨?_, ?_, ?_, ?_⟩
  · intro a b op e h1
    simp only [V0.Comparer]
    rw [h1]
  · intro a b op gt e h1 h2
    simp only [V0.Comparer]
    rw [h1, h2]
  · intro a b op gt lt h1 h2
    simp only [V0.Comparer]
    rw [h1, h2]
  · intro a b op hop
    cases h1 : V0.GTAny (dateStep a) (dateStep b) with
    | error e => exact ⟨e, by simp only [V0.Comparer]; rw [h1]⟩
    | ok gt =>
      cases h2 : V0.GTAny (dateStep b) (dateStep a) with
      | error e => exact ⟨e, by simp only [V0.Comparer]; rw [h1, h2]⟩
      | ok lt =>
        refine ⟨.unsupportedComp op, ?_⟩
        simp only [V0.Comparer]
        rw [h1, h2]
        split <;> simp_all

/-- Witness for C4: the operator mapping at `a = int32(5)`, `b =
int32(3)`, `op = ">"`, and the unrecognized operator `"?"` failing. -/
theorem Comparer_operator_semantics_w :
    (V0.GTAny (dateStep (GoVal.vi32 5)) (dateStep (GoVal.vi32 3)) =
        .ok true ∧
      V0.GTAny (dateStep (GoVal.vi32 3)) (dateStep (GoVal.vi32 5)) =
        .ok false ∧
      "?" ∉ ([">", ">=", "==", "!=", "<", "<="] : List String)) ∧
    V0.Comparer (GoVal.vi32 5) (GoVal.vi32 3) ">" = .ok true ∧
    (∃ e, V0.Comparer (GoVal.vi32 5) (GoVal.vi32 3) "?" = .error e) :=
  ⟨⟨by decide, by decide, by decide⟩,
    Comparer_operator_semantics.2.2.1 (GoVal.vi32 5) (GoVal.vi32 3) ">"
      true false (by decide) (by decide),
    Comparer_operator_semantics.2.2.2 (GoVal.vi32 5) (GoVal.vi32 3) "?"
      (by decide)⟩

/-- C10: `LTAny` is well-defined only for equal supported tags.  When
`x` carries one of the six supported tags (`float64`, `float32`,
`int64`, `int32`, `string`, `time.Time`) and `y` carries any other tag,
the type assertion on `y` fails and the call panics (the `crash`
outcome) instead of returning an error; with equal supported tags it
returns a boolean; and its error return occurs exactly when `x`'s own
tag is outside the supported set. -/
theorem LTAny_assertion_outcomes (x y : GoVal) :
    (ltSupported (tagOf x) = true → tagOf y ≠ tagOf x →
      LTAny x y = .crash) ∧
    (ltSupported (tagOf x) = true → tagOf y = tagOf x →
      ∃ b, LTAny x y = .ok b) ∧
    ((∃ e, LTAny x y = .err e) ↔ ltSupported (tagOf x) = false) := by
  cases x <;> cases y <;> simp [LTAny, tagOf, ltSupported]

/-- Witness for C10 at `x = float64(0)`, `y = int32(0)` (panic) and
`x = y = int32(0)` (defined). -/
theorem LTAny_assertion_outcomes_w :
    (ltSupported (tagOf (GoVal.vf64 0)) = true ∧
      tagOf (GoVal.vi32 0) ≠ tagOf (GoVal.vf64 0)) ∧
    LTAny (GoVal.vf64 0) (GoVal.vi32 0) = .crash ∧
    (∃ b, LTAny (GoVal.vi32 0) (GoVal.vi32 0) = .ok b) :=
  ⟨⟨by decide, by decide⟩,
    (LTAny_assertion_outcomes (GoVal.vf64 0) (GoVal.vi32 0)).1
      (by decide) (by decide),
    (LTAny_assertion_outcomes (GoVal.vi32 0) (GoVal.vi32 0)).2.1
      (by decide) (by decide)⟩

/-- C8: for non-nil operands of the same supported tag (string, int32,
int64, float32, float64, or date), both `GTAny(a, b)` and `GTAny(b, a)`
succeed, and they are never both true: exactly one of "a greater",
"b greater", or "neither (equal)" holds. -/
theorem GTAny_same_tag_trichotomy (a b : GoVal)
    (htag : tagOf a = tagOf b)
    (hsup : comparableTag (tagOf a) = true) :
    (∃ u, V0.GTAny a b = .ok u) ∧ (∃ v, V0.GTAny b a = .ok v) ∧
      ¬ (V0.GTAny a b = .ok true ∧ V0.GTAny b a = .ok true) := by
  cases a <;> cases b <;> simp_all [V0.GTAny, tagOf, comparableTag]
  all_goals
    first
      | exact fun h => le_of_lt h
      | (intro h; by_contra hc; rw [Bool.not_eq_false] at hc;
          exact goStrLtb_asymm _ _ h hc)
      | (intro h; by_contra hc; rw [Bool.not_eq_false] at hc;
          exact GoDate.ltb_asymm _ _ h hc)

/-- Witness for C8 at `a = int32(1)`, `b = int32(2)`. -/
theorem GTAny_same_tag_trichotomy_w :
    (tagOf (GoVal.vi32 1) = tagOf (GoVal.vi32 2) ∧
      comparableTag (tagOf (GoVal.vi32 1)) = true) ∧
    ((∃ u, V0.GTAny (GoVal.vi32 1) (GoVal.vi32 2) = .ok u) ∧
      (∃ v, V0.GTAny (GoVal.vi32 2) (GoVal.vi32 1) = .ok v) ∧
      ¬ (V0.GTAny (GoVal.vi32 1) (GoVal.vi32 2) = .ok true ∧
          V0.GTAny (GoVal.vi32 2) (GoVal.vi32 1) = .ok true)) :=
  ⟨⟨by decide, by decide⟩,
    GTAny_same_tag_trichotomy (GoVal.vi32 1) (GoVal.vi32 2)
      (by decide) (by decide)⟩

/- Helper lemmas for the decimal round-trip. -/

theorem digitVal_ofNat (d : Nat) (h : d < 10) :
    digitVal (Char.ofNat (48 + d)) = d := by
  interval_cases d <;> decide

theorem isDigitChar_ofNat (d : Nat) (h : d < 10) :
    isDigitChar (Char.ofNat (48 + d)) = true := by
  interval_cases d <;> decide

theorem isDigitChar_ne_sign (c : Char) (h : isDigitChar c = true) :
    c ≠ Char.ofNat 45 ∧ c ≠ Char.ofNat 43 := by
  constructor <;> (intro heq; rw [heq] at h; revert h; decide)

theorem natDigitsAux_lt (fuel : Nat) :
    ∀ n d, d ∈ natDigitsAux fuel n → d < 10 := by
  induction fuel with
  | zero => intro n d hd; simp [natDigitsAux] at hd
  | succ fuel ih =>
    intro n d hd
    by_cases hn : n = 0
    · simp [natDigitsAux, hn] at hd
    · rw [natDigitsAux, if_neg hn] at hd
      rcases List.mem_cons.mp hd with h | h
      · subst h; exact Nat.mod_lt _ (by norm_num)
      · exact ih _ _ h

theorem natDigitsAux_ne_nil (fuel n : Nat) (hf : 0 < fuel) (hn : n ≠ 0) :
    natDigitsAux fuel n ≠ [] := by
  cases fuel with
  | zero => omega
  | succ fuel => rw [natDigitsAux, if_neg hn]; exact List.cons_ne_nil _ _

theorem natDigitsAux_foldr (fuel : Nat) :
    ∀ n, n ≤ fuel →
      (natDigitsAux fuel n).foldr (fun d a => 10 * a + d) 0 = n := by
  induction fuel with
  | zero => intro n h; interval_cases n; simp [natDigitsAux]
  | succ fuel ih =>
    intro n h
    by_cases hn : n = 0
    · simp [natDigitsAux, hn]
    · rw [natDigitsAux, if_neg hn]
      rw [List.foldr_cons, ih (n / 10) (by omega)]
      omega

theorem foldr_digitChars (l : List Nat) (hl : ∀ d ∈ l, d < 10) :
    l.foldr (fun d a => 10 * a + digitVal (Char.ofNat (48 + d))) 0 =
      l.foldr (fun d a => 10 * a + d) 0 := by
  induction l with
  | nil => rfl
  | cons d l ih =>
    rw [List.foldr_cons, List.foldr_cons,
      digitVal_ofNat d (hl d (List.mem_cons_self d l)),
      ih (fun e he => hl e (List.mem_cons_of_mem d he))]

theorem natDigitsChars_foldl (n : Nat) :
    (natDigitsChars n).foldl (fun a c => 10 * a + digitVal c) 0 = n := by
  unfold natDigitsChars natDigits
  rw [List.foldl_reverse, List.foldr_map]
  rw [foldr_digitChars _ (natDigitsAux_lt n n)]
  exact natDigitsAux_foldr n n le_rfl

theorem natDigitsChars_digits (n : Nat) :
    ∀ c ∈ natDigitsChars n, isDigitChar c = true := by
  intro c hc
  unfold natDigitsChars at hc
  rw [List.mem_reverse] at hc
  obtain ⟨d, hd, rfl⟩ := List.mem_map.mp hc
  exact isDigitChar_ofNat d (natDigitsAux_lt n n d hd)

theorem natDigitsChars_ne_nil (n : Nat) (hn : n ≠ 0) :
    natDigitsChars n ≠ [] := by
  intro h
  unfold natDigitsChars at h
  rw [List.reverse_eq_nil_iff, List.map_eq_nil_iff] at h
  exact natDigitsAux_ne_nil n n (Nat.pos_of_ne_zero hn) hn h

theorem parseIntGo_digits (l : List Char) (hne : l ≠ [])
    (hdig : ∀ c ∈ l, isDigitChar c = true) (bs : Nat)
    (hb : l.foldl (fun a c => 10 * a + digitVal c) 0 ≤ 2 ^ (bs - 1) - 1) :
    parseIntGo ⟨l⟩ bs =
      .ok ((l.foldl (fun a c => 10 * a + digitVal c) 0 : Nat) : Int) := by
  obtain ⟨c, t, rfl⟩ : ∃ c t, l = c :: t := by
    cases l with
    | nil => exact absurd rfl hne
    | cons c t => exact ⟨c, t, rfl⟩
  have hc := hdig c (List.mem_cons_self c t)
  obtain ⟨h45, h43⟩ := isDigitChar_ne_sign c hc
  have hall : (c :: t).all isDigitChar = true :=
    List.all_eq_true.mpr hdig
  simp only [parseIntGo, if_neg h45, if_neg h43]
  rw [if_neg (List.cons_ne_nil c t), if_pos hall,
    if_neg (by decide : ¬ (false = true)), if_pos hb]

theorem parseIntGo_neg_digits (l : List Char) (hne : l ≠ [])
    (hdig : ∀ c ∈ l, isDigitChar c = true) (bs : Nat)
    (hb : l.foldl (fun a c => 10 * a + digitVal c) 0 ≤ 2 ^ (bs - 1)) :
    parseIntGo ⟨Char.ofNat 45 :: l⟩ bs =
      .ok (-((l.foldl (fun a c => 10 * a + digitVal c) 0 : Nat) : Int)) := by
  have hall : l.all isDigitChar = true := List.all_eq_true.mpr hdig
  simp only [parseIntGo, if_true]
  rw [if_neg hne, if_pos hall, if_pos hb]

/-- C7: for every value in the `int32` range, `Any2String` renders it as
its decimal string and `Any2Int32` parses that string back to exactly
the same value: `Any2Int32(Any2String(x)) = x`. -/
theorem Any2Int32_Any2String_roundtrip (x : Int)
    (h1 : -2147483648 ≤ x) (h2 : x ≤ 2147483647) :
    Any2Int32 (GoVal.vstr (Any2String (GoVal.vi32 x))) = .ok x := by
  have hAS : Any2String (GoVal.vi32 x) = goIntToString x := rfl
  rw [hAS]
  rcases lt_trichotomy x 0 with hx | hx | hx
  · have hrep : goIntToString x = ⟨Char.ofNat 45 :: natDigitsChars x.natAbs⟩ := by
      rw [goIntToString, if_pos hx]
    have hna : x.natAbs ≠ 0 := by omega
    have hval := natDigitsChars_foldl x.natAbs
    have hparse := parseIntGo_neg_digits (natDigitsChars x.natAbs)
      (natDigitsChars_ne_nil _ hna) (natDigitsChars_digits _) 32
      (by rw [hval]; norm_num; omega)
    rw [hrep]
    simp only [Any2Int32]
    rw [hparse, hval]
    have hcast : (-(x.natAbs : Int)) = x := by omega
    rw [hcast]
    show Except.ok (wrap32 x) = Except.ok x
    rw [wrap32_eq_self x h1 h2]
  · subst hx; decide
  · have hrep : goIntToString x = ⟨natDigitsChars x.toNat⟩ := by
      rw [goIntToString, if_neg (by omega), goNatToString, if_neg (by omega)]
    have hval := natDigitsChars_foldl x.toNat
    have hparse := parseIntGo_digits (natDigitsChars x.toNat)
      (natDigitsChars_ne_nil _ (by omega)) (natDigitsChars_digits _) 32
      (by rw [hval]; norm_num; omega)
    rw [hrep]
    simp only [Any2Int32]
    rw [hparse, hval]
    have hcast : ((x.toNat : Nat) : Int) = x := by omega
    rw [hcast]
    show Except.ok (wrap32 x) = Except.ok x
    rw [wrap32_eq_self x h1 h2]

/-- Witness for C7 at `x = -45`. -/
theorem Any2Int32_Any2String_roundtrip_w :
    (-2147483648 ≤ (-45 : Int) ∧ (-45 : Int) ≤ 2147483647) ∧
    Any2Int32 (GoVal.vstr (Any2String (GoVal.vi32 (-45)))) = .ok (-45) :=
  ⟨⟨by decide, by decide⟩,
    Any2Int32_Any2String_roundtrip (-45) (by decide) (by decide)⟩
